import Mathlib

/-!
Shallow embedding of `src/old_lambdas/lambdas/API-Authorizer/lambda_function.py`
(the request-authorization gate of the acs-backend repository), together with
theorems checking the specification's claims about it.

The embedding is faithful to the Python source:
  - `get_allowed_routes` reads its configuration through an environment
    mapping `String → Option String`, mirroring `os.environ.get`;
  - the DynamoDB session table becomes a pure `Store` function returning
    found / missing / error, mirroring `table.get_item` together with the
    exceptions that `validate_session` catches;
  - `generate_policy` receives its `resources` argument as a Python value
    that is either a string or a list of strings (`PyStrOrList`), because
    the source passes `event['methodArn']` (a `str`) on deny paths and
    `ALLOWED_ROUTES` (a `list`) on the allow path, and `for resource in
    resources` iterates a string character by character;
  - the top-level `try`/`except` of `lambda_handler` becomes an
    `Except PyExc` computation: `try_body` is the body of the `try`, and
    `lambda_handler` applies the `except` clause to its outcome.  The only
    statements inside the `try` that can raise are the subscripts
    `event['methodArn']` — on each deny path, and in the success-path
    `print` just before the allow return (every other failure source is
    absorbed inside `validate_session`) — and the `except` clause evaluates
    `event['methodArn']` again, so a missing key re-raises out of the
    handler.
-/

/-- One entry of the DynamoDB `Sessions` table as `validate_session` reads it.
`user_id = none` models an item without a `user_id` attribute (so that
`session['user_id']` raises `KeyError`); `expiration = none` models an item
whose `expiration` attribute is missing or cannot be converted by `int(...)`
(so that `int(session['expiration'])` raises). -/
structure RawItem where
  user_id : Option String
  expiration : Option Int
deriving DecidableEq, Repr

/-- Outcome of `table.get_item(Key={'session_id': session_id})` as observed by
`validate_session`: the call raises (`err`, e.g. DynamoDB unreachable), the
response has no `'Item'` key (`missing`), or an item is returned. -/
inductive StoreResponse where
  | err : StoreResponse
  | missing : StoreResponse
  | item : RawItem → StoreResponse
deriving DecidableEq, Repr

/-- The external session store: what one `get_item` lookup returns per key. -/
def SessionStore : Type := String → StoreResponse

/-- Python rendering of an optional string inside an f-string:
`f"{None}"` prints the text `None`. -/
def pyStrOfOpt : Option String → String
  | some s => s
  | none => "None"

/-- Python truthiness of `os.environ.get(...)`: `None` and the empty string
are falsy, every other string is truthy. -/
def pyTruthyOptStr : Option String → Bool
  | some s => s ≠ ""
  | none => false

/-- Embedding of `get_allowed_routes` (lambda_function.py lines 13-25).
`env` plays the role of `os.environ`: `env k` is `os.environ.get(k)`.
The source resolves
`account_id = os.environ.get('AWS_ACCOUNT_ID')`,
`region = os.environ.get('CDK_AWS_REGION', os.environ.get('AWS_REGION'))`,
`stage = os.environ.get('STAGE', 'dev')`,
`api_id = os.environ.get('API_GATEWAY_ID')`,
then returns a one-element list of an f-string ARN pattern, with the
`api_id` position replaced by `*` when `if api_id:` is falsy. -/
def get_allowed_routes (env : String → Option String) : List String :=
  let account_id := env "AWS_ACCOUNT_ID"
  let region := (env "CDK_AWS_REGION").orElse (fun _ => env "AWS_REGION")
  let stage := (env "STAGE").getD "dev"
  let api_id := env "API_GATEWAY_ID"
  if pyTruthyOptStr api_id then
    ["arn:aws:execute-api:" ++ pyStrOfOpt region ++ ":" ++ pyStrOfOpt account_id
      ++ ":" ++ pyStrOfOpt api_id ++ "/" ++ stage ++ "/*"]
  else
    ["arn:aws:execute-api:" ++ pyStrOfOpt region ++ ":" ++ pyStrOfOpt account_id
      ++ ":*/" ++ stage ++ "/*"]

/-- Embedding of `validate_session` (lambda_function.py lines 29-48).
The whole body sits inside `try ... except Exception: return None`, so a
raising lookup (`StoreResponse.err`), a missing/ill-typed `expiration`
attribute and a missing `user_id` attribute all yield `none`, exactly like a
missing item.  The expiry test is the source's
`if int(session['expiration']) < int(time.time()): return None` — strict
`<`, evaluated before `session['user_id']` is read. -/
def validate_session (store : SessionStore) (now : Int) (session_id : String) :
    Option String :=
  match store session_id with
  | .err => none
  | .missing => none
  | .item session =>
    match session.expiration with
    | none => none
    | some e =>
      if e < now then none
      else
        match session.user_id with
        | none => none
        | some u => some u

/-- A Python value that is either a `str` or a `list` of `str`: the type of
the `resources` argument of `generate_policy`.  Deny paths pass the
`methodArn` string, the allow path passes the `ALLOWED_ROUTES` list. -/
inductive PyStrOrList where
  | str : String → PyStrOrList
  | list : List String → PyStrOrList
deriving DecidableEq, Repr

/-- Python iteration over a `str`-or-`list` value, as performed by
`for resource in resources`: iterating a `list` yields its elements, while
iterating a `str` yields its characters, each as a one-character string. -/
def pyIter : PyStrOrList → List String
  | .str s => s.toList.map (fun c => String.singleton c)
  | .list l => l

/-- One element of the generated `policyDocument.Statement` array. -/
structure Statement where
  Action : String
  Effect : String
  Resource : String
deriving DecidableEq, Repr

/-- The generated `policyDocument` object. -/
structure PolicyDocument where
  Version : String
  Statement : List Statement
deriving DecidableEq, Repr

/-- The dictionary returned by `generate_policy`: `principalId`,
`policyDocument`, and an optional `context` key (absent when the `context`
argument is falsy).  The context dictionary is modelled as an association
list of string pairs. -/
structure Policy where
  principalId : String
  policyDocument : PolicyDocument
  context : Option (List (String × String))
deriving DecidableEq, Repr

/-- Python truthiness of the optional `context` dictionary argument:
`None` and the empty dict `{}` are falsy; `if context:` attaches the
`context` key only for a truthy value. -/
def pyTruthyCtx : Option (List (String × String)) → Bool
  | some l => l ≠ []
  | none => false

/-- Embedding of `generate_policy` (lambda_function.py lines 94-117):
builds one statement per iterated resource with the fixed action
`execute-api:Invoke` and the passed effect, the fixed policy version
`2012-10-17`, and attaches `context` exactly when the argument is truthy. -/
def generate_policy (principal_id : String) (effect : String)
    (resources : PyStrOrList) (context : Option (List (String × String)) := none) :
    Policy :=
  let statements := (pyIter resources).map
    (fun resource => { Action := "execute-api:Invoke", Effect := effect, Resource := resource })
  { principalId := principal_id
    policyDocument := { Version := "2012-10-17", Statement := statements }
    context := if pyTruthyCtx context then context else none }

/-- The inbound event as far as `lambda_handler` reads it:
`headers = none` models an event without a `'headers'` key (the source uses
`event.get('headers', {})`), and `methodArn = none` models an event without
a `'methodArn'` key (the source subscripts `event['methodArn']`, which then
raises `KeyError`). -/
structure Event where
  headers : Option (List (String × String))
  methodArn : Option String
deriving DecidableEq, Repr

/-- Python `dict.get` on the headers dictionary (exact, case-sensitive key
match; a dict has at most one entry per key, so first match suffices). -/
def dictGet (headers : List (String × String)) (k : String) : Option String :=
  (headers.find? (fun p => p.1 = k)).map (fun p => p.2)

/-- Embedding of
`cookie_header = headers.get('Cookie', '') or headers.get('cookie', '')`:
Python `or` keeps the left operand when it is truthy (a non-empty string)
and otherwise evaluates to the right operand. -/
def event_cookie_header (event : Event) : String :=
  let headers := event.headers.getD []
  let c := (dictGet headers "Cookie").getD ""
  if c = "" then (dictGet headers "cookie").getD "" else c

/-- Splitting a character list at every occurrence of a separator character;
the character-level counterpart of Python's `str.split`. -/
def splitOnChar (sep : Char) : List Char → List (List Char)
  | [] => [[]]
  | c :: cs =>
    let rest := splitOnChar sep cs
    if c = sep then [] :: rest
    else
      match rest with
      | [] => [[c]]
      | grp :: grps => (c :: grp) :: grps

/-- Stripping leading and trailing whitespace from a character list. -/
def trimChars (s : List Char) : List Char :=
  ((s.dropWhile Char.isWhitespace).reverse.dropWhile Char.isWhitespace).reverse

/-- Re-joining the segments that a split on `=` produced, with `=` back in
between: applied to the tail segments it recovers the value part of a
`key=value` chunk whose value itself contains `=` signs. -/
def joinWithEqSign : List (List Char) → List Char
  | [] => []
  | [v] => v
  | v :: vs => v ++ '=' :: joinWithEqSign vs

/-- Model of the stdlib lookup `SimpleCookie(header).get(key)` used by the
handler (http.cookies is standard-library code, embedded here for the
`key=value; key2=value2` headers the authorizer receives): split the header
on `;`, strip surrounding whitespace, split each chunk on the first `=`
(chunks without `=` set no cookie), and return the value bound to `key`,
with a later binding overriding an earlier one as in a cookie jar.  The
result is an `Option String` because `cookies.get` returns a Morsel or
`None`; a Morsel is a dict subclass and hence always truthy, so the
handler's `if not session_id:` test detects only the `None` case, and
`session_id.value` may well be the empty string. -/
def cookieGet (header : String) (key : String) : Option String :=
  let pairs := (splitOnChar ';' header.toList).filterMap (fun chunk =>
    match splitOnChar '=' (trimChars chunk) with
    | [] => none
    | [_] => none
    | k :: vs => some (String.mk k, String.mk (joinWithEqSign vs)))
  (pairs.reverse.find? (fun p => p.1 = key)).map (fun p => p.2)

/-- The exception that can escape `lambda_handler`: the `KeyError` raised by
`event['methodArn']`. -/
inductive PyExc where
  | keyError : PyExc
deriving DecidableEq, Repr

/-- The body of the `try` block of `lambda_handler` (lines 52-88).
`routes` is the module-level `ALLOWED_ROUTES` list computed once at import
time.  Each deny path evaluates `event['methodArn']` before calling
`generate_policy`, so a missing key raises at that point; on the success
path the line-78 `print(f"Authorized user: ... for {event['methodArn']}")`
also subscripts `event['methodArn']` before the allow return, so a missing
key raises there too. -/
def try_body (routes : List String) (store : SessionStore) (now : Int)
    (event : Event) : Except PyExc Policy :=
  let cookie_header := event_cookie_header event
  let deny : Except PyExc Policy :=
    match event.methodArn with
    | none => .error .keyError
    | some arn => .ok (generate_policy "user" "Deny" (.str arn))
  if cookie_header = "" then deny
  else
    match cookieGet cookie_header "session_id" with
    | none => deny
    | some sid =>
      match validate_session store now sid with
      | none => deny
      | some uid =>
        match event.methodArn with
        | none => .error .keyError
        | some _ =>
          .ok (generate_policy uid "Allow" (.list routes) (some [("user_id", uid)]))

/-- Embedding of `lambda_handler` (lines 50-92): run the `try` body; on any
exception the `except Exception` clause returns
`generate_policy('user', 'Deny', event['methodArn'])`, whose own subscript
re-raises when the event has no `methodArn` — that re-raise is the only way
an exception escapes the handler. -/
def lambda_handler (routes : List String) (store : SessionStore) (now : Int)
    (event : Event) : Except PyExc Policy :=
  match try_body routes store now event with
  | .ok policy => .ok policy
  | .error _ =>
    match event.methodArn with
    | none => .error .keyError
    | some arn => .ok (generate_policy "user" "Deny" (.str arn))

/-- Sequential composition view of the handler: the source only issues
`get_item` reads against the sessions table and never writes it, so an
invocation returns the store unchanged for the next invocation to use. -/
def lambda_handler_run (routes : List String) (store : SessionStore) (now : Int)
    (event : Event) : Except PyExc Policy × SessionStore :=
  (lambda_handler routes store now event, store)

example : cookieGet "session_id=abc" "session_id" = some "abc" := by decide
example : cookieGet "foo=bar" "session_id" = none := by decide
example : cookieGet "session_id=" "session_id" = some "" := by decide
example : cookieGet "a=b; session_id=xyz" "session_id" = some "xyz" := by decide

/-! Concrete fixtures used by the evaluation theorems below. -/

/-- A session store holding no record at all (every lookup answers without an
`'Item'` key). -/
def storeEmpty : SessionStore := fun _ => .missing

/-- An event whose cookie header carries no `session_id` key and whose
`methodArn` is the two-character string `xy`. -/
def eventC1 : Event :=
  { headers := some [("Cookie", "foo=bar")], methodArn := some "xy" }

/-- An event with neither a `headers` nor a `methodArn` key. -/
def eventC2 : Event := { headers := none, methodArn := none }

/-- A store whose record for `tok` expires at epoch second 100. -/
def storeC3 : SessionStore := fun sid =>
  if sid = "tok" then .item { user_id := some "u1", expiration := some 100 }
  else .missing

/-- An event carrying an unrelated header and the `methodArn` string `ab`. -/
def eventC6 : Event :=
  { headers := some [("X-Other", "v")], methodArn := some "ab" }

/-- An event whose cookie header binds `session_id` to the empty string. -/
def eventC9 : Event :=
  { headers := some [("Cookie", "session_id=")], methodArn := some "arn:r9" }

/-- A store holding a far-future session record under the empty-string key. -/
def storeC9A : SessionStore := fun sid =>
  if sid = "" then .item { user_id := some "u9", expiration := some 50 }
  else .missing

/-- C1.  The spec claims every DENY decision carries exactly one resource
entry equal to the requested `methodArn` string.  The code instead passes
the `methodArn` string itself as the `resources` argument of
`generate_policy`, whose `for resource in resources` loop iterates the
string character by character: for the two-character `methodArn` `xy` the
deny policy holds two statements whose resources are the one-character
strings `x` and `y`, not one statement whose resource is `xy`.  This
evaluates the code at that failing input. -/
theorem c1_deny_iterates_method_arn_characters :
    lambda_handler ["rc1"] storeEmpty 7 eventC1 =
      .ok (generate_policy "user" "Deny" (.str "xy")) ∧
    (generate_policy "user" "Deny" (.str "xy")).policyDocument.Statement.map
      (fun s => s.Resource) = ["x", "y"] :=
  ⟨rfl, rfl⟩

/-- C2.  The spec claims no exception ever escapes the handler.  On an event
without a `methodArn` key, the deny path inside the `try` raises `KeyError`,
and the `except` clause evaluates `event['methodArn']` again, so the same
`KeyError` escapes to the caller instead of a DENY decision. -/
theorem c2_keyerror_escapes_handler :
    lambda_handler ["rc2"] storeEmpty 0 eventC2 = .error .keyError :=
  rfl

/-- C3, counterexample.  The claim states that a record whose expiration
equals the evaluation time is already expired and yields DENY (`<=` expiry).
The code compares with strict `<`: at `now = 100` the record for `tok`
with `expiration = 100` still validates and returns its `user_id`. -/
theorem c3_counterexample_expiry_at_now_still_valid :
    validate_session storeC3 100 "tok" = some "u1" :=
  rfl

/-- C6.  For an event without any cookie header, the decision is reached
before the session store is ever consulted, so it is literally the same for
every store (and every allow-list and evaluation time): this confirms the
store-independence half of the claim.  The "scoped to the requested
resource" half fails for the same reason as C1: the deny policy for the
`methodArn` `ab` holds one statement per character (`a`, `b`) rather than a
single statement for `ab`. -/
theorem c6_no_cookie_deny_is_store_independent :
    ∀ (routes : List String) (store : SessionStore) (now : Int),
      lambda_handler routes store now eventC6 =
        .ok (generate_policy "user" "Deny" (.str "ab")) ∧
      (generate_policy "user" "Deny" (.str "ab")).policyDocument.Statement =
        [{ Action := "execute-api:Invoke", Effect := "Deny", Resource := "a" },
         { Action := "execute-api:Invoke", Effect := "Deny", Resource := "b" }] :=
  fun _ _ _ => ⟨rfl, rfl⟩

/-- C9.  A cookie header `session_id=` binds `session_id` to the empty
string; `SimpleCookie(...).get('session_id')` then returns a Morsel, which
is truthy, so the handler does not short-circuit to DENY: it forwards the
empty-string token to the store lookup, and the decision depends on the
store — a store holding a valid record under the empty-string key yields
ALLOW, an empty store yields DENY. -/
theorem c9_empty_string_token_reaches_store :
    cookieGet "session_id=" "session_id" = some "" ∧
    lambda_handler ["r9"] storeC9A 0 eventC9 =
      .ok (generate_policy "u9" "Allow" (.list ["r9"]) (some [("user_id", "u9")])) ∧
    lambda_handler ["r9"] storeEmpty 0 eventC9 =
      .ok (generate_policy "user" "Deny" (.str "arn:r9")) ∧
    generate_policy "u9" "Allow" (.list ["r9"]) (some [("user_id", "u9")]) ≠
      generate_policy "user" "Deny" (.str "arn:r9") :=
  ⟨rfl, rfl, rfl, by decide⟩

/-! Helper lemmas shared by the remaining theorems. -/

/-- Evaluation of `validate_session` on a store that returns a well-formed
item: the result is the strict-`<` expiry test applied to that item. -/
theorem validate_session_item (store : SessionStore) (now : Int) (sid : String)
    (it : RawItem) (e : Int) (u : String)
    (hit : store sid = .item it) (hexp : it.expiration = some e)
    (huid : it.user_id = some u) :
    validate_session store now sid = if e < now then none else some u := by
  unfold validate_session
  rw [hit]
  simp only [hexp, huid]

/-- Evaluation of `lambda_handler` along the path where a token is extracted
but `validate_session` rejects it: the handler returns the deny policy for
the event's `methodArn`. -/
theorem handler_denies_on_invalid (routes : List String) (store : SessionStore)
    (now : Int) (event : Event) (sid : String) (arn : String)
    (hch : event_cookie_header event ≠ "")
    (hcg : cookieGet (event_cookie_header event) "session_id" = some sid)
    (hv : validate_session store now sid = none)
    (harn : event.methodArn = some arn) :
    lambda_handler routes store now event =
      .ok (generate_policy "user" "Deny" (.str arn)) := by
  simp only [lambda_handler, try_body, if_neg hch, hcg, hv, harn]

/-- Evaluation of `lambda_handler` along the path where a token is extracted
and `validate_session` accepts it: provided the event carries a `methodArn`
(which the success-path `print` subscripts), the handler returns the allow
policy carrying the full `routes` list and the user-id context. -/
theorem handler_allows_on_valid (routes : List String) (store : SessionStore)
    (now : Int) (event : Event) (sid : String) (u : String) (arn : String)
    (hch : event_cookie_header event ≠ "")
    (hcg : cookieGet (event_cookie_header event) "session_id" = some sid)
    (hv : validate_session store now sid = some u)
    (harn : event.methodArn = some arn) :
    lambda_handler routes store now event =
      .ok (generate_policy u "Allow" (.list routes) (some [("user_id", u)])) := by
  simp only [lambda_handler, try_body, if_neg hch, hcg, hv, harn]

/-- C3, amended.  Expiry uses strict `<`: for a store record with expiration
`e` and user `u`, validation fails exactly when `e < now`, and any record
with `now ≤ e` — including one whose expiration equals the evaluation
time — validates and returns the user id. -/
theorem c3_expiry_comparison_is_strict (store : SessionStore) (now : Int)
    (sid : String) (it : RawItem) (e : Int) (u : String)
    (hit : store sid = .item it) (hexp : it.expiration = some e)
    (huid : it.user_id = some u) :
    (validate_session store now sid = none ↔ e < now) ∧
    (now ≤ e → validate_session store now sid = some u) := by
  rw [validate_session_item store now sid it e u hit hexp huid]
  constructor
  · by_cases hlt : e < now
    · simp [hlt]
    · simp [hlt]
  · intro hle
    rw [if_neg (not_lt.mpr hle)]

/-- C3, witness: the amended theorem applied to the store whose record for
`tok` expires exactly at the evaluation time 100. -/
theorem c3_expiry_comparison_is_strict_witness :
    (validate_session storeC3 100 "tok" = none ↔ (100 : Int) < 100) ∧
    ((100 : Int) ≤ 100 → validate_session storeC3 100 "tok" = some "u1") :=
  c3_expiry_comparison_is_strict storeC3 100 "tok"
    { user_id := some "u1", expiration := some 100 } 100 "u1" rfl rfl rfl

/-- C4.  A raising store lookup (`err`) or a malformed record (missing or
non-numeric `expiration`, missing `user_id`) is absorbed by
`validate_session` into the same `none` as a missing record, and any request
that forwards such a token (with a `methodArn` present) is answered with
the deny policy rather than an escaping exception. -/
theorem c4_store_errors_absorbed (store : SessionStore) (now : Int) (sid : String)
    (h : store sid = .err ∨
      ∃ it, store sid = .item it ∧ (it.expiration = none ∨ it.user_id = none)) :
    validate_session store now sid = none ∧
    ∀ (routes : List String) (event : Event) (arn : String),
      event.methodArn = some arn →
      event_cookie_header event ≠ "" →
      cookieGet (event_cookie_header event) "session_id" = some sid →
      lambda_handler routes store now event =
        .ok (generate_policy "user" "Deny" (.str arn)) := by
  have hv : validate_session store now sid = none := by
    rcases h with herr | ⟨it, hit, hbad⟩
    · unfold validate_session
      rw [herr]
    · unfold validate_session
      rw [hit]
      rcases hbad with hne | hnu
      · simp only [hne]
      · cases hexp : it.expiration with
        | none => simp only [hexp]
        | some e =>
          simp only [hexp, hnu]
          split <;> rfl
  refine ⟨hv, fun routes event arn harn hch hcg => ?_⟩
  exact handler_denies_on_invalid routes store now event sid arn hch hcg hv harn

/-- A store whose every lookup raises (models DynamoDB being unreachable). -/
def store4 : SessionStore := fun _ => .err

/-- An event forwarding the token `tok4` with `methodArn` `arn4`. -/
def event4 : Event :=
  { headers := some [("Cookie", "session_id=tok4")], methodArn := some "arn4" }

/-- C4, witness: the theorem applied to an unreachable store and a request
forwarding the token `tok4`. -/
theorem c4_store_errors_absorbed_witness :
    validate_session store4 0 "tok4" = none ∧
    lambda_handler ["r4"] store4 0 event4 =
      .ok (generate_policy "user" "Deny" (.str "arn4")) :=
  ⟨(c4_store_errors_absorbed store4 0 "tok4" (Or.inl rfl)).1,
   (c4_store_errors_absorbed store4 0 "tok4" (Or.inl rfl)).2
     ["r4"] event4 "arn4" rfl (by decide) (by decide)⟩

/-- C5.  When a request (carrying a `methodArn`, which the success-path
`print` subscripts) presents a token that maps to a store record with
expiration strictly greater than `now`, the handler answers ALLOW: the
policy's `principalId` is the record's `user_id` unchanged, its statements
cover the full `ALLOWED_ROUTES` list (one statement per route, not merely
the requested resource), and its context is exactly the single-entry
mapping from `user_id`. -/
theorem c5_valid_session_allows_full_list (routes : List String)
    (store : SessionStore) (now : Int) (event : Event) (sid : String)
    (it : RawItem) (e : Int) (u : String) (arn : String)
    (hch : event_cookie_header event ≠ "")
    (hcg : cookieGet (event_cookie_header event) "session_id" = some sid)
    (hit : store sid = .item it) (hexp : it.expiration = some e)
    (huid : it.user_id = some u) (hgt : now < e)
    (harn : event.methodArn = some arn) :
    lambda_handler routes store now event =
      .ok (generate_policy u "Allow" (.list routes) (some [("user_id", u)])) ∧
    (generate_policy u "Allow" (.list routes) (some [("user_id", u)])).principalId = u ∧
    (generate_policy u "Allow" (.list routes)
      (some [("user_id", u)])).policyDocument.Statement.map (fun s => s.Resource) = routes ∧
    (generate_policy u "Allow" (.list routes) (some [("user_id", u)])).context =
      some [("user_id", u)] := by
  have hv : validate_session store now sid = some u := by
    rw [validate_session_item store now sid it e u hit hexp huid,
      if_neg (not_lt.mpr (le_of_lt hgt))]
  refine ⟨handler_allows_on_valid routes store now event sid u arn hch hcg hv harn,
    rfl, ?_, rfl⟩
  have hco : ((fun (s : Statement) => s.Resource) ∘ fun resource =>
      ({ Action := "execute-api:Invoke", Effect := "Allow",
         Resource := resource } : Statement)) = fun r => r := rfl
  simp [generate_policy, pyIter, List.map_map, hco]

/-- A store holding a session `s5` for user `u5` expiring at epoch 10. -/
def store5 : SessionStore := fun sid =>
  if sid = "s5" then .item { user_id := some "u5", expiration := some 10 }
  else .missing

/-- An event presenting the cookie `session_id=s5`. -/
def event5 : Event :=
  { headers := some [("Cookie", "session_id=s5")], methodArn := some "arn5" }

/-- C5, witness: the theorem applied at time 3 to the store holding `s5`. -/
theorem c5_valid_session_allows_full_list_witness :
    lambda_handler ["r5a", "r5b"] store5 3 event5 =
      .ok (generate_policy "u5" "Allow" (.list ["r5a", "r5b"])
        (some [("user_id", "u5")])) :=
  (c5_valid_session_allows_full_list ["r5a", "r5b"] store5 3 event5 "s5"
    { user_id := some "u5", expiration := some 10 } 10 "u5" "arn5"
    (by decide) (by decide) rfl rfl rfl (by decide) rfl).1

/-- C7.  `get_allowed_routes` always returns exactly one pattern (it is a
pure Lean function, hence deterministic by construction): with a truthy
`API_GATEWAY_ID` the single pattern places that gateway id and the
configured stage before the wildcard suffix, and with the variable unset
(or empty, which Python's `if api_id:` also treats as unavailable) the
single pattern carries a wildcard in the gateway-id position and the
configured stage. -/
theorem c7_allow_list_is_one_pattern (env : String → Option String) :
    (get_allowed_routes env).length = 1 ∧
    (∀ api, env "API_GATEWAY_ID" = some api → api ≠ "" →
      get_allowed_routes env =
        ["arn:aws:execute-api:" ++
          pyStrOfOpt ((env "CDK_AWS_REGION").orElse (fun _ => env "AWS_REGION")) ++
          ":" ++ pyStrOfOpt (env "AWS_ACCOUNT_ID") ++ ":" ++ api ++ "/" ++
          (env "STAGE").getD "dev" ++ "/*"]) ∧
    ((env "API_GATEWAY_ID" = none ∨ env "API_GATEWAY_ID" = some "") →
      get_allowed_routes env =
        ["arn:aws:execute-api:" ++
          pyStrOfOpt ((env "CDK_AWS_REGION").orElse (fun _ => env "AWS_REGION")) ++
          ":" ++ pyStrOfOpt (env "AWS_ACCOUNT_ID") ++ ":*/" ++
          (env "STAGE").getD "dev" ++ "/*"]) := by
  refine ⟨?_, ?_, ?_⟩
  · simp only [get_allowed_routes]
    split <;> rfl
  · intro api hapi hne
    simp [get_allowed_routes, hapi, pyTruthyOptStr, hne, pyStrOfOpt]
  · rintro (hnone | hempty)
    · simp [get_allowed_routes, hnone, pyTruthyOptStr]
    · simp [get_allowed_routes, hempty, pyTruthyOptStr]

/-- A concrete environment with all four configuration variables set. -/
def envG : String → Option String := fun k =>
  if k = "API_GATEWAY_ID" then some "gw1"
  else if k = "STAGE" then some "prod"
  else if k = "AWS_ACCOUNT_ID" then some "acct"
  else if k = "CDK_AWS_REGION" then some "reg"
  else none

/-- C7, witness: the gateway-present branch evaluated on `envG`. -/
theorem c7_allow_list_is_one_pattern_witness :
    get_allowed_routes envG = ["arn:aws:execute-api:reg:acct:gw1/prod/*"] :=
  ((c7_allow_list_is_one_pattern envG).2.1 "gw1" rfl (by decide)).trans (by decide)

/-- C8.  The handler never writes the session store (the source only issues
`get_item` reads), so two consecutive invocations with the same valid,
unexpired session, the same requested resource (the `methodArn`, present on
the request as the success-path `print` subscripts it) and the same
evaluation time return identical ALLOW decisions. -/
theorem c8_consecutive_calls_identical (routes : List String)
    (store : SessionStore) (now : Int) (event : Event) (sid : String)
    (it : RawItem) (e : Int) (u : String) (arn : String)
    (hch : event_cookie_header event ≠ "")
    (hcg : cookieGet (event_cookie_header event) "session_id" = some sid)
    (hit : store sid = .item it) (hexp : it.expiration = some e)
    (huid : it.user_id = some u) (hgt : now < e)
    (harn : event.methodArn = some arn) :
    (lambda_handler_run routes store now event).1 =
      (lambda_handler_run routes (lambda_handler_run routes store now event).2
        now event).1 ∧
    (lambda_handler_run routes store now event).1 =
      .ok (generate_policy u "Allow" (.list routes) (some [("user_id", u)])) := by
  have hv : validate_session store now sid = some u := by
    rw [validate_session_item store now sid it e u hit hexp huid,
      if_neg (not_lt.mpr (le_of_lt hgt))]
  exact ⟨rfl, handler_allows_on_valid routes store now event sid u arn hch hcg hv harn⟩

/-- A store holding a session `s8` for user `u8` expiring at epoch 99. -/
def store8 : SessionStore := fun sid =>
  if sid = "s8" then .item { user_id := some "u8", expiration := some 99 }
  else .missing

/-- An event using the lower-case `cookie` header name. -/
def event8 : Event :=
  { headers := some [("cookie", "session_id=s8")], methodArn := some "arn8" }

/-- C8, witness: two consecutive runs on `store8` return the same decision. -/
theorem c8_consecutive_calls_identical_witness :
    (lambda_handler_run ["r8"] store8 0 event8).1 =
      (lambda_handler_run ["r8"] (lambda_handler_run ["r8"] store8 0 event8).2
        0 event8).1 :=
  (c8_consecutive_calls_identical ["r8"] store8 0 event8 "s8"
    { user_id := some "u8", expiration := some 99 } 99 "u8" "arn8"
    (by decide) (by decide) rfl rfl rfl (by decide) rfl).1

/-- C10.  Every policy built by `generate_policy`, for any effect and any
resources value, has the fixed document version `2012-10-17`, statements
whose action is always `execute-api:Invoke` and whose effect is the single
passed effect, and a `context` key exactly when the passed context argument
is a non-empty mapping. -/
theorem c10_policy_shape_invariant (pid effect : String)
    (resources : PyStrOrList) (ctx : Option (List (String × String))) :
    (generate_policy pid effect resources ctx).policyDocument.Version = "2012-10-17" ∧
    (∀ s ∈ (generate_policy pid effect resources ctx).policyDocument.Statement,
      s.Action = "execute-api:Invoke" ∧ s.Effect = effect) ∧
    ((generate_policy pid effect resources ctx).context ≠ none ↔
      ∃ l, ctx = some l ∧ l ≠ []) := by
  refine ⟨rfl, ?_, ?_⟩
  · intro s hs
    simp only [generate_policy, List.mem_map] at hs
    obtain ⟨r, _hr, hr2⟩ := hs
    rw [← hr2]
    exact ⟨rfl, rfl⟩
  · cases ctx with
    | none => simp [generate_policy, pyTruthyCtx]
    | some l =>
      cases l with
      | nil => simp [generate_policy, pyTruthyCtx]
      | cons p ps => simp [generate_policy, pyTruthyCtx]

/-- C10, witness: the invariant instantiated on a deny policy built from the
two-character resource string `ab` and an empty context dictionary. -/
theorem c10_policy_shape_invariant_witness :
    (generate_policy "p0" "Deny" (.str "ab")
      (some [])).policyDocument.Version = "2012-10-17" ∧
    ((generate_policy "p0" "Deny" (.str "ab") (some [])).context ≠ none ↔
      ∃ l, (some ([] : List (String × String))) = some l ∧ l ≠ []) :=
  ⟨(c10_policy_shape_invariant "p0" "Deny" (.str "ab") (some [])).1,
   (c10_policy_shape_invariant "p0" "Deny" (.str "ab") (some [])).2.2⟩
